import Mathlib

/-!
Verification of the rateMyCode analysis pipeline against its specification.

The development shallowly embeds the pieces of the repository that the
claims are about:

* `src/ratemycode/analyzer.py` — `ScriptComplexityVisitor`,
  `analyze_complexity`, `analyze_with_gemini`, `analyze_file`;
* `src/ratemycode/utils.py` — `DatabaseManager` (queue, writer loop,
  `queue_write`, `shutdown`);
* `src/ratemycode/monitor.py` — `CodeChangeHandler.on_modified` (debounce).

Python source text is represented by its parse outcome: an optional list of
statements of the small statement universe `PyStmt` (the constructs the
analyzer inspects), where `none` stands for a `SyntaxError` from
`ast.parse`/radon.  External library calls (the Gemini transport, `re`/`json`
parsing of the response, SQLite, the filesystem) are represented by their
outcomes, exactly as the spec's interface section describes them.
-/

namespace RateMyCode

/-- Statements of the Python AST as far as the analyzer distinguishes them.
`ifS`/`forS`/`whileS` carry their `body` and `orelse` statement lists;
`tryS` carries `body`, the statements inside its exception handlers,
`orelse` and `finalbody`; `funcDef`/`classDef` carry their bodies; `other`
stands for any other statement together with the statement lists nested in
it (e.g. the body of a `with`); simple statements are `other []`. -/
inductive PyStmt : Type where
  | ifS (body orelse : List PyStmt)
  | forS (body orelse : List PyStmt)
  | whileS (body orelse : List PyStmt)
  | tryS (body handlers orelse finalbody : List PyStmt)
  | funcDef (body : List PyStmt)
  | classDef (body : List PyStmt)
  | other (children : List PyStmt)

mutual

/-- Number of `self.complexity` increments performed when
`ScriptComplexityVisitor.visit` (analyzer.py lines 23-48) is run on one
node: `visit_If`/`visit_For`/`visit_While`/`visit_Try` add 1 and then
`generic_visit` all children; every other node type (including
`FunctionDef` and `ClassDef`, for which no `visit_` method is defined)
falls through to `generic_visit`, which visits all children. -/
def scriptVisitorCount : PyStmt → Nat
  | .ifS body orelse => 1 + scriptVisitorCountL body + scriptVisitorCountL orelse
  | .forS body orelse => 1 + scriptVisitorCountL body + scriptVisitorCountL orelse
  | .whileS body orelse => 1 + scriptVisitorCountL body + scriptVisitorCountL orelse
  | .tryS body handlers orelse finalbody =>
      1 + scriptVisitorCountL body + scriptVisitorCountL handlers +
        scriptVisitorCountL orelse + scriptVisitorCountL finalbody
  | .funcDef body => scriptVisitorCountL body
  | .classDef body => scriptVisitorCountL body
  | .other children => scriptVisitorCountL children

/-- Increment count of the visitor over a list of nodes. -/
def scriptVisitorCountL : List PyStmt → Nat
  | [] => 0
  | s :: ss => scriptVisitorCount s + scriptVisitorCountL ss

end

mutual

/-- Claim-side measure: total number of branching constructs
(conditional / for / while / try) occurring anywhere in a statement,
including inside function and class definitions. -/
def branchTotal : PyStmt → Nat
  | .ifS body orelse => 1 + branchTotalL body + branchTotalL orelse
  | .forS body orelse => 1 + branchTotalL body + branchTotalL orelse
  | .whileS body orelse => 1 + branchTotalL body + branchTotalL orelse
  | .tryS body handlers orelse finalbody =>
      1 + branchTotalL body + branchTotalL handlers +
        branchTotalL orelse + branchTotalL finalbody
  | .funcDef body => branchTotalL body
  | .classDef body => branchTotalL body
  | .other children => branchTotalL children

/-- Total number of branching constructs in a statement list. -/
def branchTotalL : List PyStmt → Nat
  | [] => 0
  | s :: ss => branchTotal s + branchTotalL ss

end

mutual

/-- Modelled from the spec: the per-block branching count used by
`radon.complexity.cc_visit` (an external dependency, not part of `src/`).
Spec 4.1 measurement 1: branching constructs belonging to a block are
counted "excluding nodes that belong to a nested block definition", so
recursion stops at `funcDef`/`classDef`. -/
def cc_localBranches : PyStmt → Nat
  | .ifS body orelse => 1 + cc_localBranchesL body + cc_localBranchesL orelse
  | .forS body orelse => 1 + cc_localBranchesL body + cc_localBranchesL orelse
  | .whileS body orelse => 1 + cc_localBranchesL body + cc_localBranchesL orelse
  | .tryS body handlers orelse finalbody =>
      1 + cc_localBranchesL body + cc_localBranchesL handlers +
        cc_localBranchesL orelse + cc_localBranchesL finalbody
  | .funcDef _ => 0
  | .classDef _ => 0
  | .other children => cc_localBranchesL children

/-- Modelled from the spec: per-block branching count over a statement
list. -/
def cc_localBranchesL : List PyStmt → Nat
  | [] => 0
  | s :: ss => cc_localBranches s + cc_localBranchesL ss

end

mutual

/-- Modelled from the spec: the list of cyclomatic complexities of all
function/method blocks found by `radon.complexity.cc_visit` (external
dependency).  Spec 4.1 measurement 1: every function- or method-level
block anywhere in the tree scores `1 + `branching constructs belonging to
that block. -/
def cc_blocks : PyStmt → List Nat
  | .ifS body orelse => cc_blocksL body ++ cc_blocksL orelse
  | .forS body orelse => cc_blocksL body ++ cc_blocksL orelse
  | .whileS body orelse => cc_blocksL body ++ cc_blocksL orelse
  | .tryS body handlers orelse finalbody =>
      cc_blocksL body ++ cc_blocksL handlers ++ cc_blocksL orelse ++ cc_blocksL finalbody
  | .funcDef body => (1 + cc_localBranchesL body) :: cc_blocksL body
  | .classDef body => cc_blocksL body
  | .other children => cc_blocksL children

/-- Modelled from the spec: block complexities over a statement list. -/
def cc_blocksL : List PyStmt → List Nat
  | [] => []
  | s :: ss => cc_blocks s ++ cc_blocksL ss

end

/-- The `isinstance(node, (ast.If, ast.For, ast.While, ast.Try))` filter at
analyzer.py line 73. -/
def isControlFlow : PyStmt → Bool
  | .ifS _ _ => true
  | .forS _ _ => true
  | .whileS _ _ => true
  | .tryS _ _ _ _ => true
  | _ => false

/-- The `script_complexity` value of `analyze_complexity` (analyzer.py
lines 70-76): a fresh `ScriptComplexityVisitor` (base complexity 1) is run
on exactly the top-level nodes that pass the `isinstance` control-flow
filter. -/
def script_complexity (body : List PyStmt) : Nat :=
  1 + scriptVisitorCountL (body.filter isControlFlow)

/-- analyzer.py lines 56-62: `max_complexity = 1`, replaced by
`max(block.complexity for block in blocks)` when radon found any blocks. -/
def maxBlockComplexity : List Nat → Nat
  | [] => 1
  | c :: cs => cs.foldl Nat.max c

/-- `analyze_complexity` (analyzer.py lines 50-85).  The argument is the
parse outcome of the source text: `none` when `ast.parse`/radon raise
`SyntaxError` (or any other exception), in which case the function returns
`-1`; otherwise the result is the maximum of radon's per-block
complexities (default 1) and the top-level script complexity. -/
def analyze_complexity : Option (List PyStmt) → Int
  | none => -1
  | some body =>
      Int.ofNat (Nat.max (maxBlockComplexity (cc_blocksL body)) (script_complexity body))

/-- JSON values, as produced by `json.loads` on the remote scorer's
response (numbers restricted to the integers the claims are about). -/
inductive Json : Type where
  | null
  | bool (b : Bool)
  | num (n : Int)
  | str (s : String)
  | arr (elems : List Json)
  | obj (fields : List (String × Json))

/-- Python `data.get(key, default)` on a dict decoded from JSON (fields of
a decoded object have distinct keys). -/
def jsonGet (fields : List (String × Json)) (key : String) (default : Json) : Json :=
  (fields.lookup key).getD default

/-- Outcome of the remote call and of the response-text processing in
`analyze_with_gemini` (analyzer.py lines 87-130), one constructor per
control path of the Python code.  The spec models the stdlib `re`/`json`
processing as a single structured-verdict parse (spec 9, third bullet):
`libMissing` is the `HAS_GENAI` guard; `noJsonMatch` means the regex
search for a brace-delimited region failed; `failure` is any exception
(transport error, `json.loads` decode error, ...) reaching the handler at
line 128; `objResponse` means the extracted region decoded to a JSON
object with the given fields. -/
inductive RemoteOutcome : Type where
  | libMissing
  | noJsonMatch
  | failure
  | objResponse (fields : List (String × Json))

/-- Result of `analyze_with_gemini` after the response is processed
(analyzer.py lines 91-130): `(score, verdict)` as Python values.  On the
success path the code returns `data.get("score", 50)` and
`data.get("verdict", "No verdict provided.")`. -/
def analyze_with_gemini : RemoteOutcome → Json × Json
  | .libMissing => (.num (-1), .str "Gemini library not found.")
  | .noJsonMatch => (.num (-1), .str "AI Response Malformed")
  | .failure => (.num (-1), .str "")
  | .objResponse fields =>
      (jsonGet fields "score" (.num 50), jsonGet fields "verdict" (.str "No verdict provided."))

/-- Python `score == -1` on the value returned by the remote path (an
integer compares equal to `-1` exactly when it is `-1`; a value of any
other JSON type never does). -/
def scoreIsMinusOne : Json → Bool
  | .num n => n == -1
  | _ => false

/-- A row handed to `persist_result` (analyzer.py line 183): basename,
score, persona mode and the `"Gemini"`/`"Radon"` method tag. -/
structure HistoryRecord : Type where
  filename : String
  score : Json
  mode : String
  method : String

/-- Observable effects of one `analyze_file` call: the `persist_result`
calls it makes, the `get_feedback` calls it makes (score and mode
arguments), and the quality score shown in the rendered table (`none`
when the function returned before reaching the display). -/
structure PipeResult : Type where
  persisted : List HistoryRecord
  feedback : List (Json × String)
  displayedScore : Option Json

/-- Result of a run of `analyze_file` that performed no side effects (the
early `return` paths). -/
def PipeResult.empty : PipeResult := ⟨[], [], none⟩

/-- The content read from the changed file: whether `code.strip()` is
empty, and the parse outcome of the text (`none` for a `SyntaxError`). -/
structure SourceText : Type where
  isBlank : Bool
  parse : Option (List PyStmt)

/-- The changed file as `analyze_file` observes it: its basename, whether
`os.path.exists` holds, and the outcome of reading it (`none` when
`open`/`read` raised). -/
structure SourceFile : Type where
  basename : String
  existsOnDisk : Bool
  read : Option SourceText

/-- The configuration fields `analyze_file` consumes (config.py
`load_config`, read at analyzer.py lines 136-139). -/
structure AnalyzerConfig : Type where
  mode : String
  voice_enabled : Bool
  gemini_api_key : String

/-- `analyze_file` (analyzer.py lines 132-202) as a function from the
file-read outcome, the configuration and the remote-call outcome to its
observable effects.  `none` models an uncaught exception (reachable only
on the remote path when the returned score is not an integer, where
`get_feedback(score, mode)` would raise a `TypeError`); every early
`return` yields `some PipeResult.empty`. -/
def analyze_file (cfg : AnalyzerConfig) (file : SourceFile) (remote : RemoteOutcome) :
    Option PipeResult :=
  if file.existsOnDisk = false then some .empty else
  match file.read with
  | none => some .empty
  | some code =>
    if code.isBlank then some .empty else
    let g := if cfg.gemini_api_key ≠ "" then analyze_with_gemini remote
             else (Json.num (-1), Json.str "")
    if cfg.gemini_api_key ≠ "" ∧ scoreIsMinusOne g.1 = false then
      match g.1 with
      | Json.num n =>
          some { persisted := [⟨file.basename, Json.num n, cfg.mode, "Gemini"⟩],
                 feedback := [(Json.num n, cfg.mode)],
                 displayedScore := some (Json.num n) }
      | _ => none
    else
      let depth := analyze_complexity code.parse
      if depth = -1 then some .empty
      else
        let score : Int := max 0 (100 - depth * 5)
        some { persisted := [⟨file.basename, Json.num score, cfg.mode, "Radon"⟩],
               feedback := [(Json.num score, cfg.mode)],
               displayedScore := some (Json.num score) }

/-- A tuple placed on `DatabaseManager.queue` by `queue_write` (utils.py
line 99): `(filename, score, mode, method)`. -/
structure WriteTask : Type where
  filename : String
  score : Int
  mode : String
  method : String
deriving DecidableEq

/-- Position of the writer thread inside `_writer_loop` (utils.py lines
56-68): `check` is the `while self.running` test, `get` is the blocking
`self.queue.get()`. -/
inductive WriterPc : Type where
  | check
  | get
deriving DecidableEq

/-- Shared state of `DatabaseManager`: the `running` flag, the FIFO
`queue` (front at the head; `none` is the Python `None` shutdown
sentinel), the rows inserted into the `history` table in insertion order,
the ghost list of items the writer has taken off the queue in pop order,
the writer thread's position, and whether the writer loop has
terminated. -/
structure DBState : Type where
  running : Bool
  queue : List (Option WriteTask)
  written : List WriteTask
  consumed : List (Option WriteTask)
  pc : WriterPc
  stopped : Bool
deriving DecidableEq

/-- State right after `DatabaseManager.__new__` started the writer thread:
running, empty queue, writer about to test the loop condition. -/
def DBState.init : DBState := ⟨true, [], [], [], .check, false⟩

/-- One atomic action of the writer thread in `_writer_loop` (utils.py
lines 56-68): at the loop condition it either proceeds to the blocking
`get` or, when `self.running` is false, leaves the loop; at the `get` it
blocks on an empty queue, terminates on the `None` sentinel, and
otherwise inserts the record and returns to the loop condition. -/
def writerStep (s : DBState) : DBState :=
  if s.stopped then s else
  match s.pc with
  | .check => if s.running then { s with pc := .get } else { s with stopped := true }
  | .get =>
    match s.queue with
    | [] => s
    | item :: rest =>
      match item with
      | none => { s with queue := rest, consumed := s.consumed ++ [item], stopped := true }
      | some t =>
          { s with
            queue := rest
            consumed := s.consumed ++ [item]
            written := s.written ++ [t]
            pc := .check }

/-- Interleaved actions on the `DatabaseManager`: one writer-thread action,
a producer's `queue_write` (utils.py line 99), and the two non-atomic
actions of `shutdown` (utils.py lines 102-103): `self.running = False`
followed by `self.queue.put(None)`. -/
inductive DBStep : Type where
  | writer
  | queue_write (t : WriteTask)
  | shutdown_flag
  | shutdown_sentinel
deriving DecidableEq

/-- Effect of one interleaved action on the shared state. -/
def dbStep (s : DBState) : DBStep → DBState
  | .writer => writerStep s
  | .queue_write t => { s with queue := s.queue ++ [some t] }
  | .shutdown_flag => { s with running := false }
  | .shutdown_sentinel => { s with queue := s.queue ++ [none] }

/-- Run a schedule (an interleaving of writer, producer and shutdown
actions) from a state. -/
def dbRun (s : DBState) : List DBStep → DBState
  | [] => s
  | st :: sts => dbRun (dbStep s st) sts

/-- The records a schedule enqueues via `queue_write`, in producer
order. -/
def enqueuedRecords : List DBStep → List WriteTask
  | [] => []
  | .queue_write t :: sts => t :: enqueuedRecords sts
  | _ :: sts => enqueuedRecords sts

/-- All items a schedule puts on the queue (records and the shutdown
sentinel), in put order. -/
def putItems : List DBStep → List (Option WriteTask)
  | [] => []
  | .queue_write t :: sts => some t :: putItems sts
  | .shutdown_sentinel :: sts => none :: putItems sts
  | .writer :: sts => putItems sts
  | .shutdown_flag :: sts => putItems sts

/-- A filesystem event as `CodeChangeHandler.on_modified` observes it
(monitor.py lines 26-43): directory flag, source path, the extension
`os.path.splitext(src_path)[1]` computed by the standard library, and the
value of `time.time()` when the event is handled (modelled as a rational
number of seconds). -/
structure FsEvent : Type where
  is_directory : Bool
  src_path : String
  ext : String
  time : ℚ

/-- State and configuration of `CodeChangeHandler` (monitor.py lines
18-24): the `last_modified` dict (an association list whose first binding
for a key is its current value), the debounce interval and the supported
extension set. -/
structure CodeChangeHandler : Type where
  last_modified : List (String × ℚ)
  debounce_interval : ℚ
  supported_extensions : List String

/-- `CodeChangeHandler.__init__`: empty debounce table, interval fixed at
1.0 second, extensions from the configuration. -/
def CodeChangeHandler.init (exts : List String) : CodeChangeHandler :=
  ⟨[], 1, exts⟩

/-- Python `self.last_modified.get(filename, 0)`. -/
def dictGet (m : List (String × ℚ)) (k : String) : ℚ :=
  (m.lookup k).getD 0

/-- `CodeChangeHandler.on_modified` (monitor.py lines 26-43): drops
directory events, drops unsupported extensions, and accepts (dispatching
an analysis thread, the `true` component) exactly when the event time
exceeds the stored `last_modified` timestamp by more than the debounce
interval, in which case — and only then — the entry is updated to the
event time. -/
def on_modified (h : CodeChangeHandler) (e : FsEvent) : CodeChangeHandler × Bool :=
  if e.is_directory then (h, false)
  else if e.ext ∈ h.supported_extensions then
    if h.debounce_interval < e.time - dictGet h.last_modified e.src_path then
      ({ h with last_modified := (e.src_path, e.time) :: h.last_modified }, true)
    else (h, false)
  else (h, false)

/-- The subsequence of a stream of events that the handler accepts
(dispatches), processing the stream in order. -/
def acceptedEvents (h : CodeChangeHandler) : List FsEvent → List FsEvent
  | [] => []
  | e :: es =>
    let r := on_modified h e
    if r.2 then e :: acceptedEvents r.1 es else acceptedEvents r.1 es

mutual

/-- The per-block branching count of a statement never exceeds the total
number of branching constructs in it. -/
theorem cc_local_le_total : ∀ s : PyStmt, cc_localBranches s ≤ branchTotal s
  | .ifS b e => by
      have hb := cc_local_le_totalL b
      have he := cc_local_le_totalL e
      simp only [cc_localBranches, branchTotal]
      omega
  | .forS b e => by
      have hb := cc_local_le_totalL b
      have he := cc_local_le_totalL e
      simp only [cc_localBranches, branchTotal]
      omega
  | .whileS b e => by
      have hb := cc_local_le_totalL b
      have he := cc_local_le_totalL e
      simp only [cc_localBranches, branchTotal]
      omega
  | .tryS b hs e f => by
      have h1 := cc_local_le_totalL b
      have h2 := cc_local_le_totalL hs
      have h3 := cc_local_le_totalL e
      have h4 := cc_local_le_totalL f
      simp only [cc_localBranches, branchTotal]
      omega
  | .funcDef b => by
      simp only [cc_localBranches, branchTotal]
      omega
  | .classDef b => by
      simp only [cc_localBranches, branchTotal]
      omega
  | .other cs => by
      have h := cc_local_le_totalL cs
      simp only [cc_localBranches, branchTotal]
      omega

/-- List version of `cc_local_le_total`. -/
theorem cc_local_le_totalL : ∀ l : List PyStmt, cc_localBranchesL l ≤ branchTotalL l
  | [] => le_refl _
  | s :: ss => by
      have h1 := cc_local_le_total s
      have h2 := cc_local_le_totalL ss
      simp only [cc_localBranchesL, branchTotalL]
      omega

end

mutual

/-- A statement containing no branching construct contributes only blocks
of complexity exactly 1. -/
theorem cc_blocks_one : ∀ s : PyStmt, branchTotal s = 0 → ∀ c ∈ cc_blocks s, c = 1
  | .ifS b e => by
      simp only [branchTotal]
      omega
  | .forS b e => by
      simp only [branchTotal]
      omega
  | .whileS b e => by
      simp only [branchTotal]
      omega
  | .tryS b hs e f => by
      simp only [branchTotal]
      omega
  | .funcDef b => by
      intro h c hc
      simp only [branchTotal] at h
      simp only [cc_blocks, List.mem_cons] at hc
      rcases hc with rfl | hc
      · have := cc_local_le_totalL b
        omega
      · exact cc_blocks_oneL b h c hc
  | .classDef b => by
      intro h c hc
      simp only [branchTotal] at h
      simp only [cc_blocks] at hc
      exact cc_blocks_oneL b h c hc
  | .other cs => by
      intro h c hc
      simp only [branchTotal] at h
      simp only [cc_blocks] at hc
      exact cc_blocks_oneL cs h c hc

/-- List version of `cc_blocks_one`. -/
theorem cc_blocks_oneL : ∀ l : List PyStmt, branchTotalL l = 0 → ∀ c ∈ cc_blocksL l, c = 1
  | [] => by
      intro _ c hc
      simp [cc_blocksL] at hc
  | s :: ss => by
      intro h c hc
      simp only [branchTotalL] at h
      simp only [cc_blocksL, List.mem_append] at hc
      rcases hc with hc | hc
      · exact cc_blocks_one s (by omega) c hc
      · exact cc_blocks_oneL ss (by omega) c hc

end

/-- Folding `Nat.max` over a list of ones starting from 1 yields 1. -/
theorem foldl_max_ones : ∀ (cs : List Nat) (a : Nat), a = 1 → (∀ c ∈ cs, c = 1) →
    cs.foldl Nat.max a = 1
  | [], a, ha, _ => ha
  | c :: cs, a, ha, h => by
      have hc : c = 1 := h c (List.mem_cons_self c cs)
      have : Nat.max a c = 1 := by subst ha; subst hc; rfl
      simpa [List.foldl] using
        foldl_max_ones cs (Nat.max a c) this (fun x hx => h x (List.mem_cons_of_mem _ hx))

/-- When every block has complexity 1, `max_complexity` is 1. -/
theorem maxBlockComplexity_ones (l : List Nat) (h : ∀ c ∈ l, c = 1) :
    maxBlockComplexity l = 1 := by
  cases l with
  | nil => rfl
  | cons c cs =>
      simp only [maxBlockComplexity]
      exact foldl_max_ones cs c (h c (List.mem_cons_self c cs))
        (fun x hx => h x (List.mem_cons_of_mem _ hx))

/-- A branch-free statement list contains no element passing the
`isinstance` control-flow filter. -/
theorem filter_controlFlow_nil (body : List PyStmt) (h : branchTotalL body = 0) :
    body.filter isControlFlow = [] := by
  induction body with
  | nil => rfl
  | cons s ss ih =>
      simp only [branchTotalL] at h
      have hs : branchTotal s = 0 := by omega
      have hcf : isControlFlow s = false := by
        cases s <;> simp [isControlFlow] <;> simp [branchTotal] at hs
      rw [List.filter_cons_of_neg (by simp [hcf])]
      exact ih (by omega)

/-- The top-level script complexity is at least the base value 1. -/
theorem script_complexity_ge_one (body : List PyStmt) : 1 ≤ script_complexity body := by
  simp only [script_complexity]
  omega

/-- On any successfully parsed input the structural scorer returns at
least 1. -/
theorem analyze_complexity_some_ge_one (body : List PyStmt) :
    1 ≤ analyze_complexity (some body) := by
  have h1 := script_complexity_ge_one body
  have h2 : script_complexity body ≤
      Nat.max (maxBlockComplexity (cc_blocksL body)) (script_complexity body) :=
    Nat.le_max_right _ _
  simp only [analyze_complexity, Int.ofNat_eq_natCast]
  exact_mod_cast le_trans h1 h2

/-- One writer action moves items from the queue front to the end of the
consumed list and never reorders: `consumed ++ queue` is unchanged. -/
theorem writerStep_consumed_queue (s : DBState) :
    (writerStep s).consumed ++ (writerStep s).queue = s.consumed ++ s.queue := by
  rcases s with ⟨running, queue, written, consumed, pc, stopped⟩
  cases stopped
  · cases pc
    · cases running <;> simp [writerStep]
    · cases queue with
      | nil => simp [writerStep]
      | cons item rest => cases item <;> simp [writerStep]
  · simp [writerStep]

/-- Running any schedule appends exactly the put items to the
`consumed ++ queue` sequence. -/
theorem dbRun_consumed_queue : ∀ (sts : List DBStep) (s : DBState),
    (dbRun s sts).consumed ++ (dbRun s sts).queue = (s.consumed ++ s.queue) ++ putItems sts
  | [], s => by simp [dbRun, putItems]
  | .writer :: sts, s => by
      simp only [dbRun, dbStep, putItems]
      rw [dbRun_consumed_queue sts (writerStep s), writerStep_consumed_queue]
  | .queue_write t :: sts, s => by
      simp only [dbRun, dbStep, putItems]
      rw [dbRun_consumed_queue sts _]
      simp
  | .shutdown_flag :: sts, s => by
      simp only [dbRun, dbStep, putItems]
      rw [dbRun_consumed_queue sts _]
  | .shutdown_sentinel :: sts, s => by
      simp only [dbRun, dbStep, putItems]
      rw [dbRun_consumed_queue sts _]
      simp

/-- One writer action preserves the fact that the written rows are exactly
the records among the consumed items. -/
theorem writerStep_written (s : DBState) (h : s.written = s.consumed.filterMap id) :
    (writerStep s).written = (writerStep s).consumed.filterMap id := by
  rcases s with ⟨running, queue, written, consumed, pc, stopped⟩
  cases stopped
  · cases pc
    · cases running <;> simpa [writerStep] using h
    · cases queue with
      | nil => simpa [writerStep] using h
      | cons item rest => cases item <;> simp [writerStep] <;> simp at h <;> simp [h]
  · simpa [writerStep] using h

/-- Running any schedule preserves the fact that the written rows are
exactly the records among the consumed items. -/
theorem dbRun_written : ∀ (sts : List DBStep) (s : DBState),
    s.written = s.consumed.filterMap id →
    (dbRun s sts).written = (dbRun s sts).consumed.filterMap id
  | [], _, h => h
  | st :: sts, s, h => by
      simp only [dbRun]
      apply dbRun_written sts
      cases st with
      | writer => exact writerStep_written s h
      | queue_write t => simpa [dbStep] using h
      | shutdown_flag => simpa [dbStep] using h
      | shutdown_sentinel => simpa [dbStep] using h

/-- The records among all put items are exactly the enqueued records. -/
theorem putItems_filterMap : ∀ sts : List DBStep,
    (putItems sts).filterMap id = enqueuedRecords sts
  | [] => rfl
  | .writer :: sts => by
      simpa [putItems, enqueuedRecords] using putItems_filterMap sts
  | .queue_write t :: sts => by
      simpa [putItems, enqueuedRecords] using putItems_filterMap sts
  | .shutdown_flag :: sts => by
      simpa [putItems, enqueuedRecords] using putItems_filterMap sts
  | .shutdown_sentinel :: sts => by
      simpa [putItems, enqueuedRecords] using putItems_filterMap sts

/-- `on_modified` never changes the configured debounce interval. -/
theorem on_modified_interval (h : CodeChangeHandler) (e : FsEvent) :
    ((on_modified h e).1).debounce_interval = h.debounce_interval := by
  unfold on_modified
  by_cases h1 : e.is_directory <;> simp [h1]
  by_cases h2 : e.ext ∈ h.supported_extensions <;> simp [h2]
  by_cases h3 : h.debounce_interval < e.time - dictGet h.last_modified e.src_path <;>
    simp [h3]

/-- A rejected event leaves the handler state (in particular the debounce
table) unchanged. -/
theorem on_modified_rejected (h : CodeChangeHandler) (e : FsEvent)
    (hr : (on_modified h e).2 = false) : (on_modified h e).1 = h := by
  unfold on_modified at hr ⊢
  by_cases h1 : e.is_directory <;> simp [h1] at hr ⊢
  by_cases h2 : e.ext ∈ h.supported_extensions <;> simp [h2] at hr ⊢
  by_cases h3 : h.debounce_interval < e.time - dictGet h.last_modified e.src_path <;>
    simp [h3] at hr ⊢

/-- An accepted event prepends its own `(path, time)` binding, and was
separated from the stored timestamp by more than the debounce interval. -/
theorem on_modified_accepted (h : CodeChangeHandler) (e : FsEvent)
    (hr : (on_modified h e).2 = true) :
    (on_modified h e).1.last_modified = (e.src_path, e.time) :: h.last_modified ∧
    h.debounce_interval < e.time - dictGet h.last_modified e.src_path := by
  unfold on_modified at hr ⊢
  by_cases h1 : e.is_directory <;> simp [h1] at hr ⊢
  by_cases h2 : e.ext ∈ h.supported_extensions <;> simp [h2] at hr ⊢
  by_cases h3 : h.debounce_interval < e.time - dictGet h.last_modified e.src_path <;>
    simp [h3] at hr ⊢

/-- Looking up the key just inserted returns its new timestamp. -/
theorem dictGet_cons_self (m : List (String × ℚ)) (k : String) (v : ℚ) :
    dictGet ((k, v) :: m) k = v := by
  simp [dictGet, List.lookup]

/-- Looking up a different key skips the new binding. -/
theorem dictGet_cons_ne (m : List (String × ℚ)) (k k' : String) (v : ℚ)
    (hne : k' ≠ k) : dictGet ((k, v) :: m) k' = dictGet m k' := by
  have hb : (k' == k) = false := beq_eq_false_iff_ne.mpr hne
  simp [dictGet, List.lookup, hb]

/-- When the debounce interval is nonnegative, processing an event never
decreases any stored timestamp. -/
theorem on_modified_dictGet_mono (h : CodeChangeHandler) (e : FsEvent) (p : String)
    (hint : 0 ≤ h.debounce_interval) :
    dictGet h.last_modified p ≤ dictGet ((on_modified h e).1).last_modified p := by
  by_cases hacc : (on_modified h e).2 = true
  · obtain ⟨hm, hlt⟩ := on_modified_accepted h e hacc
    rw [hm]
    by_cases hp : p = e.src_path
    · subst hp
      rw [dictGet_cons_self]
      linarith
    · rw [dictGet_cons_ne _ _ _ _ hp]
  · rw [on_modified_rejected h e (by simpa using hacc)]

/-- Once the stored timestamp for a path is at least `t`, every later
accepted event for that path is dated more than one debounce interval
after `t`. -/
theorem accepted_time_lb (p : String) (t : ℚ) :
    ∀ (es : List FsEvent) (h : CodeChangeHandler),
      0 ≤ h.debounce_interval →
      t ≤ dictGet h.last_modified p →
      ∀ b ∈ acceptedEvents h es, b.src_path = p →
        t + h.debounce_interval < b.time
  | [], h, _, _, b, hb, _ => by simp [acceptedEvents] at hb
  | e :: es, h, hint, ht, b, hb, hbp => by
      simp only [acceptedEvents] at hb
      have hmono := on_modified_dictGet_mono h e p hint
      have hint2 : 0 ≤ ((on_modified h e).1).debounce_interval := by
        rw [on_modified_interval]; exact hint
      by_cases hacc : (on_modified h e).2 = true
      · rw [if_pos hacc] at hb
        rcases List.mem_cons.mp hb with rfl | hb
        · obtain ⟨_, hlt⟩ := on_modified_accepted h b hacc
          rw [hbp] at hlt
          linarith
        · have := accepted_time_lb p t es (on_modified h e).1 hint2
            (le_trans ht hmono) b hb hbp
          rwa [on_modified_interval] at this
      · rw [if_neg (by simpa using hacc)] at hb
        have := accepted_time_lb p t es (on_modified h e).1 hint2
          (le_trans ht hmono) b hb hbp
        rwa [on_modified_interval] at this

/-- Any two accepted events for the same path are separated by more than
the debounce interval (general trace invariant). -/
theorem acceptedEvents_pairwise :
    ∀ (es : List FsEvent) (h : CodeChangeHandler), 0 ≤ h.debounce_interval →
      (acceptedEvents h es).Pairwise
        (fun a b => a.src_path = b.src_path → a.time + h.debounce_interval < b.time)
  | [], h, _ => by simp [acceptedEvents]
  | e :: es, h, hint => by
      simp only [acceptedEvents]
      have hint2 : 0 ≤ ((on_modified h e).1).debounce_interval := by
        rw [on_modified_interval]; exact hint
      have htail := acceptedEvents_pairwise es (on_modified h e).1 hint2
      rw [on_modified_interval] at htail
      by_cases hacc : (on_modified h e).2 = true
      · rw [if_pos hacc]
        refine List.Pairwise.cons ?_ htail
        intro b hb hpath
        obtain ⟨hm, _⟩ := on_modified_accepted h e hacc
        have := accepted_time_lb e.src_path e.time es (on_modified h e).1 hint2
          (by rw [hm, dictGet_cons_self]) b hb hpath.symm
        rwa [on_modified_interval] at this
      · rw [if_neg (by simpa using hacc)]
        exact htail

/-- When no remote path is configured (or the remote path yielded `-1`),
`analyze_file` on an existing, readable, non-blank file that parses takes
the structural branch: one persisted record and one feedback call, both
carrying the score `max 0 (100 - depth * 5)`, tagged `"Radon"`. -/
theorem structural_path_result
    (cfg : AnalyzerConfig) (file : SourceFile) (code : SourceText) (body : List PyStmt)
    (remote : RemoteOutcome)
    (hex : file.existsOnDisk = true) (hread : file.read = some code)
    (hblank : code.isBlank = false) (hparse : code.parse = some body)
    (hstruct : cfg.gemini_api_key = "" ∨ (analyze_with_gemini remote).1 = Json.num (-1)) :
    analyze_file cfg file remote =
      some ⟨[⟨file.basename, Json.num (max 0 (100 - analyze_complexity (some body) * 5)),
              cfg.mode, "Radon"⟩],
            [(Json.num (max 0 (100 - analyze_complexity (some body) * 5)), cfg.mode)],
            some (Json.num (max 0 (100 - analyze_complexity (some body) * 5)))⟩ := by
  have hne : analyze_complexity (some body) ≠ -1 := by
    have := analyze_complexity_some_ge_one body
    omega
  unfold analyze_file
  rw [hread]
  simp only [hex, Bool.true_eq_false, if_false]
  simp only [hblank, Bool.false_eq_true, if_false]
  by_cases hkey : cfg.gemini_api_key = ""
  · simp [hkey, hparse, hne]
  · have hg1 : (analyze_with_gemini remote).1 = Json.num (-1) := by
      rcases hstruct with h | h
      · exact absurd h hkey
      · exact h
    simp [hkey, hg1, scoreIsMinusOne, hparse, hne]

/-- C1: for every syntactically valid source text containing zero
branching constructs anywhere (no conditional, no for/while loop, no
try/catch, neither inside any function/method or class block nor at module
scope), the structural complexity scorer `analyze_complexity` returns
exactly 1. -/
theorem analyze_complexity_no_branches_eq_one (body : List PyStmt)
    (h : branchTotalL body = 0) : analyze_complexity (some body) = 1 := by
  have hfilter := filter_controlFlow_nil body h
  have hscript : script_complexity body = 1 := by
    simp [script_complexity, hfilter, scriptVisitorCountL]
  have hmax : maxBlockComplexity (cc_blocksL body) = 1 :=
    maxBlockComplexity_ones _ (cc_blocks_oneL body h)
  simp [analyze_complexity, hscript, hmax]

/-- Witness for C1: the branch-free two-statement module consisting of a
simple statement and a branch-free function definition scores exactly 1. -/
theorem analyze_complexity_no_branches_eq_one_witness :
    branchTotalL [PyStmt.other [], PyStmt.funcDef [PyStmt.other []]] = 0 ∧
    analyze_complexity (some [PyStmt.other [], PyStmt.funcDef [PyStmt.other []]]) = 1 := by
  have h : branchTotalL [PyStmt.other [], PyStmt.funcDef [PyStmt.other []]] = 0 := by
    simp [branchTotalL, branchTotal]
  exact ⟨h, analyze_complexity_no_branches_eq_one _ h⟩

/-- C2 fails on the code: in the module `if c:` / `    def f():` /
`        if d: pass`, the branching construct inside the nested function
definition is counted by the top-level measurement, because
`ScriptComplexityVisitor` defines no `visit_FunctionDef`, so
`generic_visit` re-enters the function body.  The top-level score is 3
(and the final score 3), whereas the claim — and the code's own comment
"not double-count inside functions" — require a top-level score of 2. -/
theorem script_visitor_counts_branches_inside_nested_function :
    script_complexity [PyStmt.ifS [PyStmt.funcDef [PyStmt.ifS [] []]] []] = 3 ∧
    analyze_complexity (some [PyStmt.ifS [PyStmt.funcDef [PyStmt.ifS [] []]] []]) = 3 := by
  constructor
  · simp [script_complexity, List.filter, isControlFlow, scriptVisitorCount,
      scriptVisitorCountL]
  · simp [analyze_complexity, script_complexity, List.filter, isControlFlow,
      scriptVisitorCount, scriptVisitorCountL, cc_blocksL, cc_blocks,
      cc_localBranchesL, cc_localBranches, maxBlockComplexity]

/-- C10: the structural scorer is total — modelled as a function of the
parse outcome it returns an integer on every input — and its value is
either the error signal `-1` or at least 1; a successful structural
analysis can never yield 0 or a negative score other than `-1`. -/
theorem analyze_complexity_total_range (p : Option (List PyStmt)) :
    analyze_complexity p = -1 ∨ 1 ≤ analyze_complexity p := by
  cases p with
  | none => exact Or.inl rfl
  | some body => exact Or.inr (analyze_complexity_some_ge_one body)

/-- Witness for C10 at a concrete parsed input and at the parse-error
input. -/
theorem analyze_complexity_total_range_witness :
    (analyze_complexity none = -1 ∨ 1 ≤ analyze_complexity none) ∧
    (analyze_complexity (some [PyStmt.whileS [] []]) = -1 ∨
      1 ≤ analyze_complexity (some [PyStmt.whileS [] []])) :=
  ⟨analyze_complexity_total_range none, analyze_complexity_total_range _⟩

/-- C3 fails as stated: a structured remote response missing the required
`score` field is NOT treated as remote-unavailable.  `data.get("score",
50)` defaults to 50, so the remote path is kept: the one history record is
tagged `"Gemini"`, not the structural tag `"Radon"` the claim requires. -/
theorem missing_score_field_keeps_remote_path :
    analyze_file ⟨"PROFESSIONAL", false, "key"⟩
        ⟨"a.py", true, some ⟨false, some [PyStmt.other []]⟩⟩
        (.objResponse [("verdict", Json.str "ok")]) =
      some ⟨[⟨"a.py", Json.num 50, "PROFESSIONAL", "Gemini"⟩],
            [(Json.num 50, "PROFESSIONAL")], some (Json.num 50)⟩ ∧
    "Gemini" ≠ "Radon" := by
  refine ⟨?_, by decide⟩
  simp [analyze_file, analyze_with_gemini, jsonGet, scoreIsMinusOne, List.lookup]

/-- C3 (amended): for every remote response whose text contains no
brace-delimited region, or whose processing raised (malformed JSON,
transport failure), the pipeline falls back to the structural scorer and
still produces exactly one history record and one feedback call, with the
method tagged `"Radon"`, and no error propagates (the call still returns).
A parsed object missing the `score` field instead defaults the score to 50
and keeps the remote path. -/
theorem remote_parse_failure_falls_back_to_radon
    (cfg : AnalyzerConfig) (file : SourceFile) (code : SourceText) (body : List PyStmt)
    (remote : RemoteOutcome)
    (_hkey : cfg.gemini_api_key ≠ "")
    (hex : file.existsOnDisk = true) (hread : file.read = some code)
    (hblank : code.isBlank = false) (hparse : code.parse = some body)
    (hrem : remote = .noJsonMatch ∨ remote = .failure) :
    analyze_file cfg file remote =
      some ⟨[⟨file.basename, Json.num (max 0 (100 - analyze_complexity (some body) * 5)),
              cfg.mode, "Radon"⟩],
            [(Json.num (max 0 (100 - analyze_complexity (some body) * 5)), cfg.mode)],
            some (Json.num (max 0 (100 - analyze_complexity (some body) * 5)))⟩ := by
  apply structural_path_result cfg file code body remote hex hread hblank hparse
  rcases hrem with rfl | rfl
  · exact Or.inr rfl
  · exact Or.inr rfl

/-- Witness for the amended C3: with a key configured and an unparseable
remote response, a one-statement module falls back to the structural
score 95 with method `"Radon"`. -/
theorem remote_parse_failure_falls_back_to_radon_witness :
    analyze_file ⟨"SAVAGE", false, "k"⟩ ⟨"w.py", true, some ⟨false, some [PyStmt.other []]⟩⟩
        RemoteOutcome.noJsonMatch =
      some ⟨[⟨"w.py", Json.num 95, "SAVAGE", "Radon"⟩],
            [(Json.num 95, "SAVAGE")], some (Json.num 95)⟩ := by
  have h := remote_parse_failure_falls_back_to_radon ⟨"SAVAGE", false, "k"⟩
    ⟨"w.py", true, some ⟨false, some [PyStmt.other []]⟩⟩ ⟨false, some [PyStmt.other []]⟩
    [PyStmt.other []] .noJsonMatch (by decide) rfl rfl rfl rfl (Or.inl rfl)
  have hd : analyze_complexity (some [PyStmt.other []]) = 1 := by
    simp [analyze_complexity, cc_blocksL, cc_blocks, cc_localBranchesL,
      maxBlockComplexity, script_complexity, scriptVisitorCountL, List.filter,
      isControlFlow]
  rw [hd] at h
  norm_num at h
  exact h

/-- C7: on syntactically invalid input the structural scorer signals `-1`,
and the pipeline — whenever the structural path is the one consulted —
aborts with no persistence write, no feedback call and no displayed
score. -/
theorem parse_error_aborts_pipeline :
    analyze_complexity none = -1 ∧
    ∀ (cfg : AnalyzerConfig) (file : SourceFile) (code : SourceText)
      (remote : RemoteOutcome),
      file.existsOnDisk = true → file.read = some code → code.isBlank = false →
      code.parse = none →
      (cfg.gemini_api_key = "" ∨ (analyze_with_gemini remote).1 = Json.num (-1)) →
      analyze_file cfg file remote = some PipeResult.empty := by
  refine ⟨rfl, ?_⟩
  intro cfg file code remote hex hread hblank hparse hstruct
  unfold analyze_file
  rw [hread]
  simp only [hex, Bool.true_eq_false, if_false]
  simp only [hblank, Bool.false_eq_true, if_false]
  by_cases hkey : cfg.gemini_api_key = ""
  · simp [hkey, hparse, analyze_complexity]
  · have hg1 : (analyze_with_gemini remote).1 = Json.num (-1) := by
      rcases hstruct with h | h
      · exact absurd h hkey
      · exact h
    simp [hkey, hg1, scoreIsMinusOne, hparse, analyze_complexity]

/-- Witness for C7: a file whose text does not parse is dropped with no
effects when no remote key is configured. -/
theorem parse_error_aborts_pipeline_witness :
    analyze_file ⟨"PROFESSIONAL", false, ""⟩ ⟨"b.py", true, some ⟨false, none⟩⟩
      RemoteOutcome.failure = some PipeResult.empty :=
  parse_error_aborts_pipeline.2 ⟨"PROFESSIONAL", false, ""⟩
    ⟨"b.py", true, some ⟨false, none⟩⟩ ⟨false, none⟩ .failure rfl rfl rfl rfl
    (Or.inl rfl)

/-- C8: a file whose content is empty or whitespace-only is skipped
entirely: no score (remote or structural), no history record, no feedback
call. -/
theorem blank_file_skips_analysis
    (cfg : AnalyzerConfig) (file : SourceFile) (code : SourceText)
    (remote : RemoteOutcome)
    (hex : file.existsOnDisk = true) (hread : file.read = some code)
    (hblank : code.isBlank = true) :
    analyze_file cfg file remote = some PipeResult.empty := by
  unfold analyze_file
  rw [hread]
  simp [hex, hblank]

/-- Witness for C8: a whitespace-only file is skipped even with a remote
key configured and a well-formed remote response available. -/
theorem blank_file_skips_analysis_witness :
    analyze_file ⟨"GENTLE", true, "k"⟩ ⟨"c.py", true, some ⟨true, some []⟩⟩
      (.objResponse [("score", Json.num 90), ("verdict", Json.str "fine")]) =
      some PipeResult.empty :=
  blank_file_skips_analysis ⟨"GENTLE", true, "k"⟩ ⟨"c.py", true, some ⟨true, some []⟩⟩
    ⟨true, some []⟩ _ rfl rfl rfl

/-- C9: whenever the structural path is used, the final score is the fixed
persona-independent linear transform `max 0 (100 - complexity * 5)` of the
complexity value, and for the complexity values the scorer can produce
(always at least 1 here) the score lies in `[0, 100]`; changing the
persona changes neither the score computed nor the score displayed. -/
theorem structural_score_linear_transform
    (cfg : AnalyzerConfig) (file : SourceFile) (code : SourceText) (body : List PyStmt)
    (remote : RemoteOutcome)
    (hex : file.existsOnDisk = true) (hread : file.read = some code)
    (hblank : code.isBlank = false) (hparse : code.parse = some body)
    (hstruct : cfg.gemini_api_key = "" ∨ (analyze_with_gemini remote).1 = Json.num (-1)) :
    analyze_file cfg file remote =
      some ⟨[⟨file.basename, Json.num (max 0 (100 - analyze_complexity (some body) * 5)),
              cfg.mode, "Radon"⟩],
            [(Json.num (max 0 (100 - analyze_complexity (some body) * 5)), cfg.mode)],
            some (Json.num (max 0 (100 - analyze_complexity (some body) * 5)))⟩ ∧
    0 ≤ max 0 (100 - analyze_complexity (some body) * 5) ∧
    max 0 (100 - analyze_complexity (some body) * 5) ≤ 100 ∧
    ∀ mode2 : String,
      (analyze_file { cfg with mode := mode2 } file remote).map PipeResult.displayedScore =
        some (some (Json.num (max 0 (100 - analyze_complexity (some body) * 5)))) := by
  have hge := analyze_complexity_some_ge_one body
  refine ⟨structural_path_result cfg file code body remote hex hread hblank hparse hstruct,
    le_max_left _ _, ?_, ?_⟩
  · omega
  · intro mode2
    rw [structural_path_result { cfg with mode := mode2 } file code body remote hex hread
      hblank hparse hstruct]
    rfl

/-- Witness for C9: a module whose only statement is a top-level loop has
complexity 2 and structural score 90, independent of the persona. -/
theorem structural_score_linear_transform_witness :
    analyze_file ⟨"PROFESSIONAL", false, ""⟩
        ⟨"d.py", true, some ⟨false, some [PyStmt.forS [PyStmt.other []] []]⟩⟩
        RemoteOutcome.failure =
      some ⟨[⟨"d.py", Json.num 90, "PROFESSIONAL", "Radon"⟩],
            [(Json.num 90, "PROFESSIONAL")], some (Json.num 90)⟩ := by
  have h := structural_score_linear_transform ⟨"PROFESSIONAL", false, ""⟩
    ⟨"d.py", true, some ⟨false, some [PyStmt.forS [PyStmt.other []] []]⟩⟩
    ⟨false, some [PyStmt.forS [PyStmt.other []] []]⟩ [PyStmt.forS [PyStmt.other []] []]
    .failure rfl rfl rfl rfl (Or.inl rfl)
  have hd : analyze_complexity (some [PyStmt.forS [PyStmt.other []] []]) = 2 := by
    simp [analyze_complexity, cc_blocksL, cc_blocks, cc_localBranchesL,
      maxBlockComplexity, script_complexity, scriptVisitorCountL, scriptVisitorCount,
      List.filter, isControlFlow]
  rw [hd] at h
  norm_num at h
  exact h.1

/-- C4 fails on the code: `shutdown` sets `self.running = False` before
putting the sentinel, so a writer that is at the `while self.running`
check exits the loop without consuming records queued ahead of the
sentinel.  Schedule: a producer enqueues one record, `shutdown` runs its
two actions, then the writer acts: the loop terminates (`stopped`) with
nothing written although one record was enqueued before the sentinel. -/
theorem shutdown_flag_drops_queued_record :
    (dbRun DBState.init
      [DBStep.queue_write ⟨"a.py", 95, "PROFESSIONAL", "Radon"⟩, DBStep.shutdown_flag,
       DBStep.shutdown_sentinel, DBStep.writer, DBStep.writer]).stopped = true ∧
    (dbRun DBState.init
      [DBStep.queue_write ⟨"a.py", 95, "PROFESSIONAL", "Radon"⟩, DBStep.shutdown_flag,
       DBStep.shutdown_sentinel, DBStep.writer, DBStep.writer]).written = [] ∧
    enqueuedRecords
      [DBStep.queue_write ⟨"a.py", 95, "PROFESSIONAL", "Radon"⟩, DBStep.shutdown_flag,
       DBStep.shutdown_sentinel, DBStep.writer, DBStep.writer] =
      [⟨"a.py", 95, "PROFESSIONAL", "Radon"⟩] :=
  ⟨rfl, rfl, rfl⟩

/-- C6: persistence ordering.  In every interleaving of producer
enqueues, writer actions and shutdown actions, the rows the single writer
has appended form a prefix of the sequence of records enqueued by
`queue_write`: a record enqueued earlier is appended earlier (FIFO), and
in particular when a producer enqueues R1 and then R2, R1 is appended
before R2. -/
theorem queue_write_fifo_order (sts : List DBStep) :
    ∃ rest, (dbRun DBState.init sts).written ++ rest = enqueuedRecords sts := by
  refine ⟨(dbRun DBState.init sts).queue.filterMap id, ?_⟩
  rw [dbRun_written sts DBState.init rfl, ← List.filterMap_append]
  have h := dbRun_consumed_queue sts DBState.init
  rw [show DBState.init.consumed = [] from rfl, show DBState.init.queue = [] from rfl] at h
  simp only [List.append_nil, List.nil_append] at h
  rw [h, putItems_filterMap]

/-- Witness for C6 at a concrete two-record schedule. -/
theorem queue_write_fifo_order_witness :
    ∃ rest, (dbRun DBState.init
        [DBStep.queue_write ⟨"e.py", 80, "GENTLE", "Radon"⟩,
         DBStep.queue_write ⟨"f.py", 70, "GENTLE", "Radon"⟩,
         DBStep.writer, DBStep.writer, DBStep.writer]).written ++ rest =
      enqueuedRecords
        [DBStep.queue_write ⟨"e.py", 80, "GENTLE", "Radon"⟩,
         DBStep.queue_write ⟨"f.py", 70, "GENTLE", "Radon"⟩,
         DBStep.writer, DBStep.writer, DBStep.writer] :=
  queue_write_fifo_order _

/-- C5: the debounce invariant.  (1) In any trace, two accepted events for
the same path are separated by more than the debounce interval; (2) two
events for one path closer than the interval: only the first dispatches;
(3) two events for one path farther apart than the interval: both
dispatch; (4) a rejected event leaves the debounce entry unchanged;
(5) an accepted event sets the entry to its own timestamp. -/
theorem debounce_dispatch_claims :
    (∀ (h : CodeChangeHandler) (es : List FsEvent), 0 ≤ h.debounce_interval →
        (acceptedEvents h es).Pairwise
          (fun a b => a.src_path = b.src_path → a.time + h.debounce_interval < b.time))
    ∧ (∀ (exts : List String) (e1 e2 : FsEvent),
        e1.is_directory = false → e2.is_directory = false →
        e1.ext ∈ exts → e2.ext ∈ exts → e2.src_path = e1.src_path →
        1 < e1.time → e2.time - e1.time < 1 →
        acceptedEvents (CodeChangeHandler.init exts) [e1, e2] = [e1])
    ∧ (∀ (exts : List String) (e1 e2 : FsEvent),
        e1.is_directory = false → e2.is_directory = false →
        e1.ext ∈ exts → e2.ext ∈ exts → e2.src_path = e1.src_path →
        1 < e1.time → 1 < e2.time - e1.time →
        acceptedEvents (CodeChangeHandler.init exts) [e1, e2] = [e1, e2])
    ∧ (∀ (h : CodeChangeHandler) (e : FsEvent),
        (on_modified h e).2 = false → (on_modified h e).1 = h)
    ∧ (∀ (h : CodeChangeHandler) (e : FsEvent),
        (on_modified h e).2 = true →
        dictGet ((on_modified h e).1).last_modified e.src_path = e.time) := by
  refine ⟨fun h es => acceptedEvents_pairwise es h, ?_, ?_, on_modified_rejected, ?_⟩
  · intro exts e1 e2 hd1 hd2 hx1 hx2 hp ht1 hsep
    have h1 : on_modified (CodeChangeHandler.init exts) e1 =
        (⟨[(e1.src_path, e1.time)], 1, exts⟩, true) := by
      unfold on_modified CodeChangeHandler.init
      rw [if_neg (by simp [hd1]), if_pos hx1,
        if_pos (by simpa [dictGet, List.lookup] using ht1)]
    have hdg : dictGet [(e1.src_path, e1.time)] e2.src_path = e1.time := by
      rw [hp]
      exact dictGet_cons_self [] _ _
    have h2 : on_modified ⟨[(e1.src_path, e1.time)], 1, exts⟩ e2 =
        (⟨[(e1.src_path, e1.time)], 1, exts⟩, false) := by
      unfold on_modified
      rw [if_neg (by simp [hd2]), if_pos hx2,
        if_neg (by rw [hdg]; show ¬((1 : ℚ) < e2.time - e1.time); linarith)]
    simp only [acceptedEvents, h1, h2]
    simp
  · intro exts e1 e2 hd1 hd2 hx1 hx2 hp ht1 hsep
    have h1 : on_modified (CodeChangeHandler.init exts) e1 =
        (⟨[(e1.src_path, e1.time)], 1, exts⟩, true) := by
      unfold on_modified CodeChangeHandler.init
      rw [if_neg (by simp [hd1]), if_pos hx1,
        if_pos (by simpa [dictGet, List.lookup] using ht1)]
    have hdg : dictGet [(e1.src_path, e1.time)] e2.src_path = e1.time := by
      rw [hp]
      exact dictGet_cons_self [] _ _
    have h2 : on_modified ⟨[(e1.src_path, e1.time)], 1, exts⟩ e2 =
        (⟨(e2.src_path, e2.time) :: [(e1.src_path, e1.time)], 1, exts⟩, true) := by
      unfold on_modified
      rw [if_neg (by simp [hd2]), if_pos hx2,
        if_pos (by rw [hdg]; show (1 : ℚ) < e2.time - e1.time; linarith)]
    simp only [acceptedEvents, h1, h2]
    simp
  · intro h e hr
    obtain ⟨hm, _⟩ := on_modified_accepted h e hr
    rw [hm]
    exact dictGet_cons_self _ _ _

/-- Witness for C5 at conjunct (2): two events for the same path at the
same timestamp — separation 0, less than the 1-second interval — dispatch
only once. -/
theorem debounce_dispatch_claims_witness :
    acceptedEvents (CodeChangeHandler.init [".py"])
        [⟨false, "a.py", ".py", 2⟩, ⟨false, "a.py", ".py", 2⟩] =
      [⟨false, "a.py", ".py", 2⟩] :=
  debounce_dispatch_claims.2.1 [".py"] ⟨false, "a.py", ".py", 2⟩ ⟨false, "a.py", ".py", 2⟩
    rfl rfl (by simp) (by simp) rfl (by norm_num) (by norm_num)

end RateMyCode
